import Mathlib

/-!
Verification development for the DA_TRIAL repository: a natural-language-to-SQL
question-answering loop with two variants, `DataAccessThruPrompt.py` (Gemini
backend) and `DataAccessThruPromptMistral.py` (Bedrock Mistral backend).

The Python pipeline is shallowly embedded: pure string manipulation is
translated to Lean functions over `String`/`List Char`; Python exceptions are
modelled with `Except PyError`; the LLM backends and the SQLite execution are
abstracted as function parameters; the per-call connection open/close of
`run_sql_query` is made explicit with a connection-count state.
-/

/-- Python exceptions that the embedded code can raise. -/
inductive PyError where
  | valueError (msg : String)
  | jsonDecodeError
  | attributeError
  | indexError
  | sqliteError (msg : String)
deriving DecidableEq

/-! ## Python string primitives used by the code -/

/-- Whitespace characters removed by Python `str.strip()` (ASCII range). -/
def isPyWs (c : Char) : Bool :=
  c == ' ' || c == '\x0b' || c == '\x0c' || c == '\t' || c == '\n' || c == '\r'

/-- Model of Python `str.strip()`: drop leading and trailing whitespace. -/
def pyStrip (s : String) : String :=
  ⟨((s.data.dropWhile isPyWs).reverse.dropWhile isPyWs).reverse⟩

/-- Boolean test that `pat` is a prefix of `l`. -/
def listPrefixEq (pat l : List Char) : Bool :=
  match pat, l with
  | [], _ => true
  | p :: ps, c :: cs => p == c && listPrefixEq ps cs
  | _ :: _, [] => false

/-- Replace every non-overlapping occurrence of `pat` in `l` by `rep`,
scanning left to right, as Python `str.replace` does for a non-empty
pattern.  Each step consumes at least one character, so fuel equal to the
length of `l` is exact; the fuel only makes the recursion structural. -/
def listReplace (pat rep : List Char) : Nat → List Char → List Char
  | 0, l => l
  | _ + 1, [] => []
  | fuel + 1, c :: rest =>
    if listPrefixEq pat (c :: rest) && !pat.isEmpty then
      rep ++ listReplace pat rep fuel (List.drop (pat.length - 1) rest)
    else
      c :: listReplace pat rep fuel rest

/-- Model of Python `str.replace(pat, rep)` (all occurrences). -/
def pyReplace (s pat rep : String) : String :=
  ⟨listReplace pat.data rep.data s.data.length s.data⟩

/-- Boolean test that `needle` occurs as a contiguous run inside `hay`. -/
def listHasSub (needle : List Char) : List Char → Bool
  | [] => needle.isEmpty
  | c :: rest => listPrefixEq needle (c :: rest) || listHasSub needle rest

/-- Substring occurrence test on strings. -/
def strContainsSub (hay needle : String) : Bool :=
  listHasSub needle.data hay.data

/-- Model of Python `str.lower()` (ASCII case folding suffices here). -/
def pyLower (s : String) : String :=
  ⟨s.data.map Char.toLower⟩

/-! ## Model of Python `json` (the fragment `json.loads` / the code relies on)

Python's `json.loads` parses the full JSON grammar; numbers are kept here as
their lexemes because the embedded code never looks inside a numeric value
(a non-string `sql` value only ever triggers an `AttributeError`).  The
nonstandard `NaN`/`Infinity` extensions of CPython's parser are not modelled;
no claim depends on them. -/

/-- JSON values as produced by `json.loads`. -/
inductive JValue where
  | null
  | bool (b : Bool)
  | num (lexeme : String)
  | str (s : String)
  | arr (elems : List JValue)
  | obj (members : List (String × JValue))

/-- Model of Python `dict.get key` on an object's member list: later duplicate
keys override earlier ones, as in `dict` construction by `json.loads`. -/
def objFind (key : String) : List (String × JValue) → Option JValue
  | [] => none
  | (k, v) :: rest =>
    match objFind key rest with
    | some v' => some v'
    | none => if k == key then some v else none

/-- Skip JSON insignificant whitespace. -/
def skipWs : List Char → List Char
  | c :: rest =>
    if c == ' ' || c == '\n' || c == '\r' || c == '\t' then skipWs rest else c :: rest
  | [] => []

/-- Value of a hexadecimal digit. -/
def hexVal (c : Char) : Option Nat :=
  if '0' ≤ c && c ≤ '9' then some (c.toNat - 48)
  else if 'a' ≤ c && c ≤ 'f' then some (c.toNat - 87)
  else if 'A' ≤ c && c ≤ 'F' then some (c.toNat - 55)
  else none

/-- Single-character JSON escapes. -/
def escChar : Char → Option Char
  | 'n' => some '\n'
  | 't' => some '\t'
  | 'r' => some '\r'
  | 'b' => some '\x08'
  | 'f' => some '\x0c'
  | c => if c == '"' || c == '\\' || c == '/' then some c else none

/-- Parse the rest of a JSON string (after the opening quote), returning the
decoded characters and the remaining input. -/
def parseStrChars : Nat → List Char → Option (List Char × List Char)
  | 0, _ => none
  | _ + 1, [] => none
  | fuel + 1, c :: rest =>
    if c == '"' then some ([], rest)
    else if c == '\\' then
      match rest with
      | 'u' :: h1 :: h2 :: h3 :: h4 :: r2 =>
        match hexVal h1, hexVal h2, hexVal h3, hexVal h4 with
        | some a, some b, some c3, some d =>
          match parseStrChars fuel r2 with
          | some (s, r) => some (Char.ofNat (((a * 16 + b) * 16 + c3) * 16 + d) :: s, r)
          | none => none
        | _, _, _, _ => none
      | e :: r2 =>
        match escChar e with
        | some ch =>
          match parseStrChars fuel r2 with
          | some (s, r) => some (ch :: s, r)
          | none => none
        | none => none
      | [] => none
    else if c.toNat < 32 then none
    else
      match parseStrChars fuel rest with
      | some (s, r) => some (c :: s, r)
      | none => none

/-- Parse the integer part of a JSON number (no leading zeros). -/
def intPartRest (cs : List Char) : Option (List Char × List Char) :=
  match cs with
  | [] => none
  | c :: r =>
    if c == '0' then some (['0'], r)
    else if c.isDigit then
      let p := r.span Char.isDigit
      some (c :: p.1, p.2)
    else none

/-- Parse an optional fraction part of a JSON number. -/
def fracPart : List Char → Option (List Char × List Char)
  | '.' :: r =>
    let p := r.span Char.isDigit
    if p.1.isEmpty then none else some ('.' :: p.1, p.2)
  | cs => some ([], cs)

/-- Parse an optional exponent part of a JSON number. -/
def expPart : List Char → Option (List Char × List Char)
  | c :: r =>
    if c == 'e' || c == 'E' then
      let sr : List Char × List Char :=
        match r with
        | s :: r2 => if s == '+' || s == '-' then ([s], r2) else ([], s :: r2)
        | [] => ([], [])
      let p := sr.2.span Char.isDigit
      if p.1.isEmpty then none else some (c :: (sr.1 ++ p.1), p.2)
    else some ([], c :: r)
  | [] => some ([], [])

/-- Parse a JSON number, returning its lexeme. -/
def parseNumber (cs : List Char) : Option (List Char × List Char) :=
  let nr : List Char × List Char :=
    match cs with
    | '-' :: r => (['-'], r)
    | _ => ([], cs)
  match intPartRest nr.2 with
  | none => none
  | some (ip, r1) =>
    match fracPart r1 with
    | none => none
    | some (fp, r2) =>
      match expPart r2 with
      | none => none
      | some (ep, r3) => some (nr.1 ++ ip ++ fp ++ ep, r3)

mutual

/-- Parse one JSON value from the input (fuel bounds the nesting depth, as
CPython's recursion limit does). -/
def parseValue : Nat → List Char → Option (JValue × List Char)
  | 0, _ => none
  | fuel + 1, cs =>
    match skipWs cs with
    | [] => none
    | '"' :: rest =>
      match parseStrChars (rest.length + 1) rest with
      | some (s, r) => some (.str ⟨s⟩, r)
      | none => none
    | '\x7b' :: rest =>
      match skipWs rest with
      | '\x7d' :: r => some (.obj [], r)
      | _ => parseObjRest fuel rest []
    | '[' :: rest =>
      match skipWs rest with
      | ']' :: r => some (.arr [], r)
      | _ => parseArrRest fuel rest []
    | 't' :: rest =>
      if listPrefixEq ['r', 'u', 'e'] rest then some (.bool true, rest.drop 3) else none
    | 'f' :: rest =>
      if listPrefixEq ['a', 'l', 's', 'e'] rest then some (.bool false, rest.drop 4) else none
    | 'n' :: rest =>
      if listPrefixEq ['u', 'l', 'l'] rest then some (.null, rest.drop 3) else none
    | c :: rest =>
      if c == '-' || c.isDigit then
        match parseNumber (c :: rest) with
        | some (lex, r) => some (.num ⟨lex⟩, r)
        | none => none
      else none

/-- Parse the members of a JSON object after `\x7b` (or after a comma). -/
def parseObjRest : Nat → List Char → List (String × JValue) → Option (JValue × List Char)
  | 0, _, _ => none
  | fuel + 1, cs, acc =>
    match skipWs cs with
    | '"' :: rest =>
      match parseStrChars (rest.length + 1) rest with
      | none => none
      | some (k, r1) =>
        match skipWs r1 with
        | ':' :: r2 =>
          match parseValue fuel r2 with
          | none => none
          | some (v, r3) =>
            match skipWs r3 with
            | ',' :: r4 => parseObjRest fuel r4 ((⟨k⟩, v) :: acc)
            | '\x7d' :: r4 => some (.obj ((⟨k⟩, v) :: acc).reverse, r4)
            | _ => none
        | _ => none
    | _ => none

/-- Parse the elements of a JSON array after `[` (or after a comma). -/
def parseArrRest : Nat → List Char → List JValue → Option (JValue × List Char)
  | 0, _, _ => none
  | fuel + 1, cs, acc =>
    match parseValue fuel cs with
    | none => none
    | some (v, r) =>
      match skipWs r with
      | ',' :: r2 => parseArrRest fuel r2 (v :: acc)
      | ']' :: r2 => some (.arr (v :: acc).reverse, r2)
      | _ => none

end

/-- Model of Python `json.loads`: parse the whole input as one JSON document;
anything else raises `json.JSONDecodeError`. -/
def json_loads (s : String) : Except PyError JValue :=
  match parseValue (s.length + 1) s.data with
  | some (v, rest) => if (skipWs rest).isEmpty then .ok v else .error .jsonDecodeError
  | none => .error .jsonDecodeError

/-! ## SQLite values and Python serialization of query results -/

/-- Primitive values a SQLite row can hold in this pipeline. -/
inductive SqlValue where
  | null
  | int (n : Int)
  | text (s : String)
deriving DecidableEq

/-- Model of Python `str(...)` on a row value. -/
def pyStr : SqlValue → String
  | .null => "None"
  | .int n => toString n
  | .text s => s

/-- Hexadecimal digit character (lowercase, as CPython emits). -/
def hexDigit (n : Nat) : Char :=
  if n < 10 then Char.ofNat (48 + n) else Char.ofNat (87 + n)

/-- Four-digit hexadecimal rendering used by `\u` escapes. -/
def hex4 (n : Nat) : List Char :=
  [hexDigit (n / 4096 % 16), hexDigit (n / 256 % 16), hexDigit (n / 16 % 16), hexDigit (n % 16)]

/-- Escaping of one character by `json.dumps` (default `ensure_ascii=True`). -/
def jsonEscChar (c : Char) : List Char :=
  if c == '"' then ['\\', '"']
  else if c == '\\' then ['\\', '\\']
  else if c == '\x08' then ['\\', 'b']
  else if c == '\x0c' then ['\\', 'f']
  else if c == '\n' then ['\\', 'n']
  else if c == '\r' then ['\\', 'r']
  else if c == '\t' then ['\\', 't']
  else if c.toNat < 32 then '\\' :: 'u' :: hex4 c.toNat
  else if c.toNat < 127 then [c]
  else if c.toNat < 65536 then '\\' :: 'u' :: hex4 c.toNat
  else
    ('\\' :: 'u' :: hex4 (55296 + (c.toNat - 65536) / 1024)) ++
      ('\\' :: 'u' :: hex4 (56320 + (c.toNat - 65536) % 1024))

/-- Model of `json.dumps` on one row value (default separators). -/
def dumpsValue : SqlValue → String
  | .null => "null"
  | .int n => toString n
  | .text s => "\"" ++ String.mk (s.data.map jsonEscChar).flatten ++ "\""

/-- Model of `json.dumps` on one row (a SQLite tuple serializes as an array). -/
def dumpsRow (row : List SqlValue) : String :=
  "[" ++ String.intercalate ", " (row.map dumpsValue) ++ "]"

/-- Model of `json.dumps(query_result)` with default separators. -/
def pyJsonDumps (rows : List (List SqlValue)) : String :=
  "[" ++ String.intercalate ", " (rows.map dumpsRow) ++ "]"

/-- Serialization chosen by `generate_final_answer` (identical in both files):
`str(query_result[0][0])` when the result is exactly one row of one column
(the Python guard `len(query_result) == 1 and len(query_result[0]) == 1`),
otherwise `json.dumps(query_result)`. -/
def resultStr (query_result : List (List SqlValue)) : String :=
  match query_result with
  | [row] =>
    match row with
    | [v] => pyStr v
    | _ => pyJsonDumps query_result
  | _ => pyJsonDumps query_result

/-! ## Markdown-fence cleaning and SQL extraction (identical in both files) -/

/-- The cleaning applied to the raw model text in `prompt_to_sql`:
`raw_text.replace("```json", "").replace("```sql", "").replace("```", "").strip()`. -/
def cleanText (raw_text : String) : String :=
  pyStrip (pyReplace (pyReplace (pyReplace raw_text "```json" "") "```sql" "") "```" "")

/-- The JSON-extraction step of `prompt_to_sql` applied to the cleaned text:
`json.loads` then `parsed.get("sql", "").strip()`, with only
`json.JSONDecodeError` caught (fallback to the cleaned text itself).  A parsed
non-dict value has no `.get` and a non-string `sql` value has no `.strip()`;
both raise `AttributeError`, which is not caught. -/
def extractSql (cleaned_text : String) : Except PyError String :=
  match json_loads cleaned_text with
  | .error _ => .ok cleaned_text
  | .ok (.obj members) =>
    match objFind "sql" members with
    | some (.str s) => .ok (pyStrip s)
    | some _ => .error .attributeError
    | none => .ok (pyStrip "")
  | .ok _ => .error .attributeError

/-! ## Query Executor (identical `run_sql_query` in both files)

The SQLite engine is abstracted as `execFn`; the connection lifecycle is made
explicit by counting open connections.  The Python body is
`conn = sqlite3.connect(DB_FILE); cursor = conn.cursor();
cursor.execute(sql_query); data = cursor.fetchall(); conn.close(); return data`
with no `try`/`finally`: `conn.close()` runs only after a successful
`fetchall`. -/

/-- Connection-count state surrounding one `run_sql_query` call. -/
structure ConnState where
  openConns : Nat
deriving DecidableEq

/-- Embedding of `run_sql_query`: connect (one more open handle), execute and
fetch, and close only on the success path, exactly as the Python code is
ordered. -/
def run_sql_query (execFn : String → Except PyError (List (List SqlValue)))
    (sql_query : String) (s : ConnState) :
    Except PyError (List (List SqlValue)) × ConnState :=
  let s1 : ConnState := ⟨s.openConns + 1⟩
  match execFn sql_query with
  | .error e => (.error e, s1)
  | .ok data => (.ok data, ⟨s1.openConns - 1⟩)

/-! ## The Gemini variant: `DataAccessThruPrompt.py` -/

/-- One part of a Gemini candidate's content (`part.text`). -/
structure GeminiPart where
  text : String

/-- Content of a Gemini candidate (`candidate.content.parts`). -/
structure GeminiContent where
  parts : List GeminiPart

/-- One Gemini candidate. -/
structure GeminiCandidate where
  content : GeminiContent

/-- A Gemini `generate_content` response (`response.candidates`). -/
structure GeminiResponse where
  candidates : List GeminiCandidate

/-- The blocked/empty-generation test used twice by `prompt_to_sql` and once
by `generate_final_answer`:
`not response.candidates or not response.candidates[0].content.parts`. -/
def geminiBlocked (r : GeminiResponse) : Bool :=
  match r.candidates with
  | [] => true
  | c :: _ => c.content.parts.isEmpty

/-- The text read by the code after the blocked test passes:
`response.candidates[0].content.parts[0].text` (the defaults are never
reached when `geminiBlocked` is `false`). -/
def geminiFirstText (r : GeminiResponse) : String :=
  match r.candidates with
  | [] => ""
  | c :: _ =>
    match c.content.parts with
    | [] => ""
    | p :: _ => p.text

namespace DataAccessThruPrompt

/-- Fixed text of the Gemini SQL prompt before the schema dump. -/
def basePromptPre : String :=
  "\n    You are a SQL generation engine for a reporting tool.\n\n    " ++
  "Task: Convert the following request into a valid **SQLite** SQL query.\n    " ++
  "The database schema is provided below in JSON format. \n    " ++
  "Use this schema to ensure correct joins, column usage, and filtering.\n    " ++
  "Do not invent tables or columns that are not in the schema.\n\n    " ++
  "Database Schema (JSON):\n    "

/-- Fixed text of the Gemini SQL prompt between the schema dump and the user
request. -/
def basePromptMid : String :=
  "\n\n    Output format must be ONLY JSON:\n    \x7b\n      \"sql\": \"<SQL query here>\"\n    \x7d\n\n    User request: "

/-- Fixed text of the Gemini SQL prompt after the user request. -/
def basePromptPost : String := "\n    "

/-- The `base_prompt` f-string of `prompt_to_sql`, as a function of the
serialized data dictionary (`json.dumps(DATA_DICTIONARY, indent=2)` in the
source, a module-level constant) and the user prompt. -/
def basePrompt (dataDictJson user_prompt : String) : String :=
  basePromptPre ++ dataDictJson ++ basePromptMid ++ user_prompt ++ basePromptPost

/-- Embedding of `prompt_to_sql` (Gemini).  The backend is abstracted as
`gen`, indexed by the call number so that mocks can answer differently on the
retry; the returned list records the prompts sent, in order.  Control flow
follows the source: one blocked-test, at most one retry with
`base_prompt.replace("largest loan", "highest loan amount")`, a second
blocked-test raising `ValueError("No valid SQL from Gemini after retry.")`,
then fence cleaning and JSON extraction. -/
def prompt_to_sql (gen : Nat → String → GeminiResponse)
    (dataDictJson user_prompt : String) : Except PyError String × List String :=
  let base_prompt := basePrompt dataDictJson user_prompt
  let response := gen 0 base_prompt
  if geminiBlocked response then
    let retry_prompt := pyReplace base_prompt "largest loan" "highest loan amount"
    let response2 := gen 1 retry_prompt
    if geminiBlocked response2 then
      (.error (.valueError "No valid SQL from Gemini after retry."), [base_prompt, retry_prompt])
    else
      (extractSql (cleanText (geminiFirstText response2)), [base_prompt, retry_prompt])
  else
    (extractSql (cleanText (geminiFirstText response)), [base_prompt])

/-- Fixed text of the Gemini answer prompt before the quoted user question. -/
def answerPromptPre : String :=
  "\n    You are a helpful NBFC banking assistant working with a *synthetic demo dataset*.\n    " ++
  "This is fictional and safe to share.\n\n    The user asked: \""

/-- Fixed text of the Gemini answer prompt between the question and the
serialized result. -/
def answerPromptMid : String := "\"\n    The database query returned: "

/-- Fixed text of the Gemini answer prompt after the serialized result. -/
def answerPromptPost : String :=
  "\n\n    Please give a clear, concise, and helpful answer in natural language.\n    "

/-- The `answer_prompt` f-string of `generate_final_answer` as a function of
the user prompt and the already-serialized result string. -/
def answerPrompt (user_prompt result_str : String) : String :=
  answerPromptPre ++ user_prompt ++ answerPromptMid ++ result_str ++ answerPromptPost

/-- Embedding of `generate_final_answer` (Gemini): serialize the result with
`resultStr`, render the answer prompt, call the backend once, and raise
`ValueError("No valid answer from Gemini.")` on a blocked/empty response —
there is no retry, so exactly one prompt is ever sent. -/
def generate_final_answer (gen : Nat → String → GeminiResponse)
    (user_prompt : String) (query_result : List (List SqlValue)) :
    Except PyError String × List String :=
  let answer_prompt := answerPrompt user_prompt (resultStr query_result)
  let response := gen 0 answer_prompt
  if geminiBlocked response then
    (.error (.valueError "No valid answer from Gemini."), [answer_prompt])
  else
    (.ok (geminiFirstText response), [answer_prompt])

end DataAccessThruPrompt

/-! ## The Mistral variant: `DataAccessThruPromptMistral.py` -/

/-- One entry of the `results` list in a Bedrock response body; `outputText`
may be absent. -/
structure MistralEntry where
  outputText : Option String

/-- Parsed JSON body of a Bedrock `invoke_model` response; the `results` key
may be absent. -/
structure MistralBody where
  results : Option (List MistralEntry)

namespace DataAccessThruPromptMistral

/-- Embedding of `call_mistral`: the Bedrock round-trip (request serialization,
`invoke_model`, response-body parse) is abstracted as `bedrock`; the
result handling is `result.get("results", [\x7b\x7d])[0].get("outputText", "").strip()`,
which raises `IndexError` on an empty `results` list and otherwise returns the
stripped text (the empty string when the key or the field is missing). -/
def call_mistral (bedrock : String → MistralBody) (prompt : String) :
    Except PyError String :=
  match (bedrock prompt).results with
  | none => .ok (pyStrip "")
  | some [] => .error .indexError
  | some (e :: _) => .ok (pyStrip (e.outputText.getD ""))

/-- Fixed text of the Mistral SQL prompt before the schema dump. -/
def basePromptPre : String :=
  "\nYou are a SQL generation engine for a reporting tool.\n\n" ++
  "Task: Convert the following request into a valid **SQLite** SQL query.\n" ++
  "The database schema is provided below in JSON format.\n" ++
  "Use this schema to ensure correct joins, column usage, and filtering.\n" ++
  "Do not invent tables or columns that are not in the schema.\n\n" ++
  "Database Schema (JSON):\n"

/-- Fixed text of the Mistral SQL prompt between the schema dump and the user
request. -/
def basePromptMid : String :=
  "\n\nOutput format must be ONLY JSON:\n\x7b\n  \"sql\": \"<SQL query here>\"\n\x7d\n\nUser request: "

/-- Fixed text of the Mistral SQL prompt after the user request. -/
def basePromptPost : String := "\n"

/-- The `base_prompt` f-string of the Mistral `prompt_to_sql`. -/
def basePrompt (dataDictJson user_prompt : String) : String :=
  basePromptPre ++ dataDictJson ++ basePromptMid ++ user_prompt ++ basePromptPost

/-- Embedding of `prompt_to_sql` (Mistral): one `call_mistral` round-trip —
no blocked-test and no retry exist in this variant — then the same fence
cleaning and JSON extraction as the Gemini variant.  An exception from
`call_mistral` propagates. -/
def prompt_to_sql (bedrock : String → MistralBody)
    (dataDictJson user_prompt : String) : Except PyError String × List String :=
  let base_prompt := basePrompt dataDictJson user_prompt
  match call_mistral bedrock base_prompt with
  | .error e => (.error e, [base_prompt])
  | .ok raw_text => (extractSql (cleanText raw_text), [base_prompt])

/-- Fixed text of the Mistral answer prompt before the quoted user question. -/
def answerPromptPre : String :=
  "\nYou are a helpful NBFC banking assistant working with a *synthetic demo dataset*.\n" ++
  "This is fictional and safe to share.\n\nThe user asked: \""

/-- Fixed text of the Mistral answer prompt between the question and the
serialized result. -/
def answerPromptMid : String := "\"\nThe database query returned: "

/-- Fixed text of the Mistral answer prompt after the serialized result. -/
def answerPromptPost : String :=
  "\n\nPlease give a clear, concise, and helpful answer in natural language.\n"

/-- The `answer_prompt` f-string of the Mistral `generate_final_answer`. -/
def answerPrompt (user_prompt result_str : String) : String :=
  answerPromptPre ++ user_prompt ++ answerPromptMid ++ result_str ++ answerPromptPost

/-- Embedding of the Mistral `generate_final_answer`: serialize the result,
render the prompt, and return `call_mistral`'s outcome directly — there is no
empty-completion check, no "no answer produced" error and no retry. -/
def generate_final_answer (bedrock : String → MistralBody)
    (user_prompt : String) (query_result : List (List SqlValue)) :
    Except PyError String × List String :=
  let answer_prompt := answerPrompt user_prompt (resultStr query_result)
  (call_mistral bedrock answer_prompt, [answer_prompt])

end DataAccessThruPromptMistral

/-! ## Schema Provider and the interactive loop (identical in both files) -/

/-- Model of the Schema Provider's load: `json.load` on the contents of
`nbfc_data_dictionary.json` (a pure function of the file's text). -/
def schemaLoad (contents : String) : Except PyError JValue :=
  json_loads contents

/-- Embedding of the `__main__` loop: consume input lines in order; a line
whose `lower()` is `"exit"` or `"quit"` terminates; any other line runs the
three-stage pipeline inside `try/except Exception`, so the outcome — answer or
caught error — is recorded and the loop continues with the next line.  The
pipeline for one turn is abstracted as `pipeline`. -/
def mainLoop (pipeline : String → Except PyError String) :
    List String → List (String × Except PyError String)
  | [] => []
  | user_input :: rest =>
    if pyLower user_input == "exit" || pyLower user_input == "quit" then []
    else (user_input, pipeline user_input) :: mainLoop pipeline rest

/-! ## General lemmas about the string utilities -/

/-- Appending to a string concatenates the character data. -/
theorem strData_append (a b : String) : (a ++ b).data = a.data ++ b.data := rfl

/-- A list is a prefix of itself followed by anything. -/
theorem listPrefixEq_self_append (s t : List Char) : listPrefixEq s (s ++ t) = true := by
  induction s with
  | nil => rfl
  | cons c cs ih => simp [listPrefixEq, ih]

/-- A run occurs in any list that starts with it. -/
theorem listHasSub_self_append (s b : List Char) : listHasSub s (s ++ b) = true := by
  cases s with
  | nil =>
    cases b with
    | nil => rfl
    | cons c rest => simp [listHasSub, listPrefixEq]
  | cons c cs =>
    show (listPrefixEq (c :: cs) ((c :: cs) ++ b) || listHasSub (c :: cs) (cs ++ b)) = true
    rw [listPrefixEq_self_append (c :: cs) b, Bool.true_or]

/-- A run occurs in any list that contains it contiguously. -/
theorem listHasSub_middle (s a b : List Char) : listHasSub s (a ++ (s ++ b)) = true := by
  induction a with
  | nil => simpa using listHasSub_self_append s b
  | cons c a' ih => simp [listHasSub, ih]

/-- A string of the shape `a ++ s ++ rest` contains `s`. -/
theorem strContainsSub_middle (a s rest : String) :
    strContainsSub (a ++ s ++ rest) s = true := by
  have h : (a ++ s ++ rest).data = a.data ++ (s.data ++ rest.data) := by
    simp [strData_append, List.append_assoc]
  simp only [strContainsSub, h]
  exact listHasSub_middle s.data a.data rest.data

/-- The processed inputs of `mainLoop` do not depend on the pipeline's
outcomes: any two pipelines consume exactly the same input lines. -/
theorem mainLoop_fst_indep (p q : String → Except PyError String)
    (inputs : List String) :
    (mainLoop p inputs).map Prod.fst = (mainLoop q inputs).map Prod.fst := by
  induction inputs with
  | nil => rfl
  | cons line rest ih =>
    by_cases h : (pyLower line == "exit" || pyLower line == "quit") = true
    · simp [mainLoop, h]
    · simp only [mainLoop, h, Bool.false_eq_true, if_false, List.map_cons]
      exact congrArg _ ih

/-- A query result with two rows is never of the one-row-one-column shape,
so `resultStr` serializes it as JSON. -/
theorem resultStr_of_not_single (q : List (List SqlValue))
    (h : ∀ w : SqlValue, q ≠ [[w]]) : resultStr q = pyJsonDumps q := by
  match q, h with
  | [], _ => rfl
  | [[]], _ => rfl
  | [[w]], h => exact absurd rfl (h w)
  | [w1 :: w2 :: t], _ => rfl
  | r1 :: r2 :: t, h' => rfl

/-- String concatenation is associative. -/
theorem strAppend_assoc (a b c : String) : (a ++ b) ++ c = a ++ (b ++ c) :=
  congrArg String.mk (List.append_assoc a.data b.data c.data)

/-- The Gemini SQL prompt embeds the serialized schema verbatim. -/
theorem basePrompt_contains_schema (d u : String) :
    strContainsSub (DataAccessThruPrompt.basePrompt d u) d = true := by
  have h : DataAccessThruPrompt.basePrompt d u =
      (DataAccessThruPrompt.basePromptPre ++ d) ++
        (DataAccessThruPrompt.basePromptMid ++ (u ++ DataAccessThruPrompt.basePromptPost)) := by
    simp [DataAccessThruPrompt.basePrompt, strAppend_assoc]
  rw [h]
  exact strContainsSub_middle _ d _

/-- The Mistral SQL prompt embeds the serialized schema verbatim. -/
theorem basePromptM_contains_schema (d u : String) :
    strContainsSub (DataAccessThruPromptMistral.basePrompt d u) d = true := by
  have h : DataAccessThruPromptMistral.basePrompt d u =
      (DataAccessThruPromptMistral.basePromptPre ++ d) ++
        (DataAccessThruPromptMistral.basePromptMid ++
          (u ++ DataAccessThruPromptMistral.basePromptPost)) := by
    simp [DataAccessThruPromptMistral.basePrompt, strAppend_assoc]
  rw [h]
  exact strContainsSub_middle _ d _

/-- The Gemini answer prompt embeds the serialized query result verbatim. -/
theorem answerPrompt_contains_result (u s : String) :
    strContainsSub (DataAccessThruPrompt.answerPrompt u s) s = true := by
  have h : DataAccessThruPrompt.answerPrompt u s =
      ((DataAccessThruPrompt.answerPromptPre ++ u) ++ DataAccessThruPrompt.answerPromptMid ++ s)
        ++ DataAccessThruPrompt.answerPromptPost := by
    simp [DataAccessThruPrompt.answerPrompt, strAppend_assoc]
  rw [h]
  exact strContainsSub_middle _ s _

/-- The Mistral answer prompt embeds the serialized query result verbatim. -/
theorem answerPromptM_contains_result (u s : String) :
    strContainsSub (DataAccessThruPromptMistral.answerPrompt u s) s = true := by
  have h : DataAccessThruPromptMistral.answerPrompt u s =
      ((DataAccessThruPromptMistral.answerPromptPre ++ u) ++
          DataAccessThruPromptMistral.answerPromptMid ++ s)
        ++ DataAccessThruPromptMistral.answerPromptPost := by
    simp [DataAccessThruPromptMistral.answerPrompt, strAppend_assoc]
  rw [h]
  exact strContainsSub_middle _ s _

/-! ## Mock clients used by the concrete witnesses -/

/-- Mock Gemini backend: blocked on the first call, a valid SQL JSON payload
on the retry. -/
def mockBlockedThenSql : Nat → String → GeminiResponse := fun i _ =>
  if i == 0 then ⟨[]⟩ else ⟨[⟨⟨[⟨"\x7b\"sql\": \"SELECT 7\"\x7d"⟩]⟩⟩]⟩

/-- Mock Gemini backend returning a fixed text on every call. -/
def mockGeminiText (raw : String) : Nat → String → GeminiResponse := fun _ _ =>
  ⟨[⟨⟨[⟨raw⟩]⟩⟩]⟩

/-- Mock Bedrock backend returning a fixed output text on every call. -/
def mockBedrockText (raw : String) : String → MistralBody := fun _ =>
  ⟨some [⟨some raw⟩]⟩

/-- Mock pipeline that always raises. -/
def mockFailingPipeline : String → Except PyError String := fun _ =>
  .error (.valueError "boom")

/-- Mock pipeline that always answers. -/
def mockOkPipeline : String → Except PyError String := fun _ => .ok "fine"

/-! ## The claims -/

/-- Counterexample to C1 as stated: starting from no open connections, a SQL
text whose execution raises (here `SELECT * FROM missing_table` failing with
an operational error) leaves `run_sql_query` propagating the error with one
connection still open — the connection is not closed before the error
propagates, because the Python body has no `try`/`finally` and `conn.close()`
is only reached after a successful `fetchall`. -/
theorem run_sql_query_connection_counterexample :
    (run_sql_query (fun _ => .error (.sqliteError "no such table: missing_table"))
        "SELECT * FROM missing_table" ⟨0⟩).1 =
      .error (.sqliteError "no such table: missing_table") ∧
    (run_sql_query (fun _ => .error (.sqliteError "no such table: missing_table"))
        "SELECT * FROM missing_table" ⟨0⟩).2.openConns = 1 :=
  ⟨rfl, rfl⟩

/-- C1 (amended): for every call, `run_sql_query` closes the connection it
opened before returning on the success path, while on the failure path the
error propagates with the connection still open (exactly one more open handle
than before the call). -/
theorem run_sql_query_connection_amended
    (execFn : String → Except PyError (List (List SqlValue)))
    (sql_query : String) (s : ConnState) :
    (run_sql_query execFn sql_query s).2.openConns =
      match (run_sql_query execFn sql_query s).1 with
      | .ok _ => s.openConns
      | .error _ => s.openConns + 1 := by
  cases h : execFn sql_query with
  | error e => simp [run_sql_query, h]
  | ok data => simp [run_sql_query, h]

/-- C2: if the first Gemini call is blocked, `prompt_to_sql` retries exactly
once with `"largest loan"` replaced by `"highest loan amount"` in the prompt
(exactly two prompts are sent); a blocked retry raises the no-SQL
`ValueError`, and a retry carrying a valid SQL JSON payload returns that
payload's stripped `sql` field. -/
theorem prompt_to_sql_single_retry (gen : Nat → String → GeminiResponse)
    (dataDictJson user_prompt : String)
    (hb : geminiBlocked (gen 0 (DataAccessThruPrompt.basePrompt dataDictJson user_prompt)) = true) :
    (DataAccessThruPrompt.prompt_to_sql gen dataDictJson user_prompt).2 =
      [DataAccessThruPrompt.basePrompt dataDictJson user_prompt,
       pyReplace (DataAccessThruPrompt.basePrompt dataDictJson user_prompt)
         "largest loan" "highest loan amount"] ∧
    (geminiBlocked (gen 1 (pyReplace (DataAccessThruPrompt.basePrompt dataDictJson user_prompt)
          "largest loan" "highest loan amount")) = true →
      (DataAccessThruPrompt.prompt_to_sql gen dataDictJson user_prompt).1 =
        .error (.valueError "No valid SQL from Gemini after retry.")) ∧
    (∀ members s,
      geminiBlocked (gen 1 (pyReplace (DataAccessThruPrompt.basePrompt dataDictJson user_prompt)
          "largest loan" "highest loan amount")) = false →
      json_loads (cleanText (geminiFirstText (gen 1
          (pyReplace (DataAccessThruPrompt.basePrompt dataDictJson user_prompt)
            "largest loan" "highest loan amount")))) = .ok (.obj members) →
      objFind "sql" members = some (.str s) →
      (DataAccessThruPrompt.prompt_to_sql gen dataDictJson user_prompt).1 = .ok (pyStrip s)) := by
  refine ⟨?_, ?_, ?_⟩
  · simp only [DataAccessThruPrompt.prompt_to_sql, hb, if_true, apply_ite Prod.snd, ite_self]
  · intro h2
    simp only [DataAccessThruPrompt.prompt_to_sql, hb, h2, if_true]
  · intro members s h2 hj hf
    simp only [DataAccessThruPrompt.prompt_to_sql, hb, h2, if_true, Bool.false_eq_true, if_false]
    simp only [extractSql, hj, hf]

/-- Witness for C2 at the mocked backend that is blocked once and then
produces `\x7b"sql": "SELECT 7"\x7d`. -/
theorem prompt_to_sql_single_retry_witness :
    geminiBlocked (mockBlockedThenSql 0 (DataAccessThruPrompt.basePrompt "\x7b\x7d" "q")) = true ∧
    (DataAccessThruPrompt.prompt_to_sql mockBlockedThenSql "\x7b\x7d" "q").2 =
      [DataAccessThruPrompt.basePrompt "\x7b\x7d" "q",
       pyReplace (DataAccessThruPrompt.basePrompt "\x7b\x7d" "q")
         "largest loan" "highest loan amount"] ∧
    (DataAccessThruPrompt.prompt_to_sql mockBlockedThenSql "\x7b\x7d" "q").1 = .ok "SELECT 7" := by
  refine ⟨rfl, ?_, ?_⟩
  · exact (prompt_to_sql_single_retry mockBlockedThenSql "\x7b\x7d" "q" rfl).1
  · exact (prompt_to_sql_single_retry mockBlockedThenSql "\x7b\x7d" "q" rfl).2.2
      [("sql", .str "SELECT 7")] "SELECT 7" (by rfl) (by rfl) (by rfl)

/-- C3: for a response whose text is the SQL JSON payload wrapped in a
triple-backtick JSON fence, both variants of `prompt_to_sql` strip the fence,
parse the JSON and return exactly the `sql` field, here `SELECT 1`. -/
theorem prompt_to_sql_fenced_json (dataDictJson user_prompt : String) :
    (DataAccessThruPrompt.prompt_to_sql
        (mockGeminiText "```json\n\x7b\"sql\": \"SELECT 1\"\x7d\n```")
        dataDictJson user_prompt).1 = .ok "SELECT 1" ∧
    (DataAccessThruPromptMistral.prompt_to_sql
        (mockBedrockText "```json\n\x7b\"sql\": \"SELECT 1\"\x7d\n```")
        dataDictJson user_prompt).1 = .ok "SELECT 1" :=
  ⟨rfl, rfl⟩

/-- C4: when the cleaned response text does not parse as JSON, both variants
of `prompt_to_sql` fall back to returning the cleaned text itself. -/
theorem prompt_to_sql_fallback (gen : Nat → String → GeminiResponse)
    (bedrock : String → MistralBody) (dataDictJson user_prompt raw : String)
    (hg : geminiBlocked (gen 0 (DataAccessThruPrompt.basePrompt dataDictJson user_prompt)) = false)
    (hgj : json_loads (cleanText (geminiFirstText
        (gen 0 (DataAccessThruPrompt.basePrompt dataDictJson user_prompt)))) =
      .error .jsonDecodeError)
    (hm : DataAccessThruPromptMistral.call_mistral bedrock
        (DataAccessThruPromptMistral.basePrompt dataDictJson user_prompt) = .ok raw)
    (hmj : json_loads (cleanText raw) = .error .jsonDecodeError) :
    (DataAccessThruPrompt.prompt_to_sql gen dataDictJson user_prompt).1 =
      .ok (cleanText (geminiFirstText
        (gen 0 (DataAccessThruPrompt.basePrompt dataDictJson user_prompt)))) ∧
    (DataAccessThruPromptMistral.prompt_to_sql bedrock dataDictJson user_prompt).1 =
      .ok (cleanText raw) := by
  constructor
  · simp only [DataAccessThruPrompt.prompt_to_sql, hg, Bool.false_eq_true, if_false]
    simp only [extractSql, hgj]
  · simp only [DataAccessThruPromptMistral.prompt_to_sql, hm]
    simp only [extractSql, hmj]

/-- Witness for C4 at mocked backends answering `SELECT 42 -- latest` (no
JSON structure). -/
theorem prompt_to_sql_fallback_witness :
    geminiBlocked (mockGeminiText "SELECT 42 -- latest" 0
      (DataAccessThruPrompt.basePrompt "\x7b\x7d" "q")) = false ∧
    json_loads (cleanText "SELECT 42 -- latest") = .error .jsonDecodeError ∧
    (DataAccessThruPrompt.prompt_to_sql (mockGeminiText "SELECT 42 -- latest") "\x7b\x7d" "q").1 =
      .ok "SELECT 42 -- latest" ∧
    (DataAccessThruPromptMistral.prompt_to_sql
        (mockBedrockText "SELECT 42 -- latest") "\x7b\x7d" "q").1 = .ok "SELECT 42 -- latest" := by
  refine ⟨rfl, by rfl, ?_, ?_⟩
  · exact (prompt_to_sql_fallback (mockGeminiText "SELECT 42 -- latest")
      (mockBedrockText "SELECT 42 -- latest") "\x7b\x7d" "q" "SELECT 42 -- latest"
      rfl (by rfl) (by rfl) (by rfl)).1
  · exact (prompt_to_sql_fallback (mockGeminiText "SELECT 42 -- latest")
      (mockBedrockText "SELECT 42 -- latest") "\x7b\x7d" "q" "SELECT 42 -- latest"
      rfl (by rfl) (by rfl) (by rfl)).2

/-- C5: the answer prompt of both variants embeds `str(query_result[0][0])`
for a one-row-one-column result and the JSON serialization of the whole
result for every other shape. -/
theorem generate_final_answer_serialization (gen : Nat → String → GeminiResponse)
    (bedrock : String → MistralBody) (u : String) (v : SqlValue)
    (q : List (List SqlValue)) (hshape : ∀ w : SqlValue, q ≠ [[w]]) :
    (DataAccessThruPrompt.generate_final_answer gen u [[v]]).2 =
      [DataAccessThruPrompt.answerPrompt u (pyStr v)] ∧
    (DataAccessThruPromptMistral.generate_final_answer bedrock u [[v]]).2 =
      [DataAccessThruPromptMistral.answerPrompt u (pyStr v)] ∧
    (DataAccessThruPrompt.generate_final_answer gen u q).2 =
      [DataAccessThruPrompt.answerPrompt u (pyJsonDumps q)] ∧
    (DataAccessThruPromptMistral.generate_final_answer bedrock u q).2 =
      [DataAccessThruPromptMistral.answerPrompt u (pyJsonDumps q)] ∧
    strContainsSub (DataAccessThruPrompt.answerPrompt u (pyStr v)) (pyStr v) = true ∧
    strContainsSub (DataAccessThruPromptMistral.answerPrompt u (pyStr v)) (pyStr v) = true := by
  refine ⟨?_, ?_, ?_, ?_,
    answerPrompt_contains_result u (pyStr v), answerPromptM_contains_result u (pyStr v)⟩
  · simp only [DataAccessThruPrompt.generate_final_answer, apply_ite Prod.snd, ite_self]
    rfl
  · rfl
  · simp only [DataAccessThruPrompt.generate_final_answer, apply_ite Prod.snd, ite_self]
    rw [resultStr_of_not_single q hshape]
  · show [DataAccessThruPromptMistral.answerPrompt u (resultStr q)] = _
    rw [resultStr_of_not_single q hshape]

/-- Witness for C5 at the result `[[42]]` (prompt embeds the literal `42`)
and the two-row result `[[1, "a"], [2, "b"]]` (prompt embeds the JSON
array). -/
theorem generate_final_answer_serialization_witness :
    (∀ w : SqlValue, [[SqlValue.int 1, SqlValue.text "a"],
      [SqlValue.int 2, SqlValue.text "b"]] ≠ [[w]]) ∧
    (DataAccessThruPrompt.generate_final_answer (mockGeminiText "ok") "q" [[.int 42]]).2 =
      [DataAccessThruPrompt.answerPrompt "q" "42"] ∧
    (DataAccessThruPrompt.generate_final_answer (mockGeminiText "ok") "q"
        [[.int 1, .text "a"], [.int 2, .text "b"]]).2 =
      [DataAccessThruPrompt.answerPrompt "q" "[[1, \"a\"], [2, \"b\"]]"] ∧
    strContainsSub (DataAccessThruPrompt.answerPrompt "q" "42") "42" = true := by
  have hshape : ∀ w : SqlValue, [[SqlValue.int 1, SqlValue.text "a"],
      [SqlValue.int 2, SqlValue.text "b"]] ≠ [[w]] := by
    intro w h
    have hlen := congrArg List.length h
    simp at hlen
  refine ⟨hshape, ?_, ?_, ?_⟩
  · exact (generate_final_answer_serialization (mockGeminiText "ok") (mockBedrockText "ok")
      "q" (.int 42) [] (by intro w h; exact List.noConfusion h)).1
  · exact (generate_final_answer_serialization (mockGeminiText "ok") (mockBedrockText "ok")
      "q" (.int 42) [[.int 1, .text "a"], [.int 2, .text "b"]] hshape).2.2.1
  · exact (generate_final_answer_serialization (mockGeminiText "ok") (mockBedrockText "ok")
      "q" (.int 42) [] (by intro w h; exact List.noConfusion h)).2.2.2.2.1

/-- C6 (amended): on a blocked/empty completion the Gemini
`generate_final_answer` raises `ValueError("No valid answer from Gemini.")`
and sends exactly one prompt (no retry); the Mistral variant, whose
`call_mistral` collapses a completion with no output text to `""`, returns
the empty string as the answer instead of failing, also without retry. -/
theorem generate_final_answer_no_usable (gen : Nat → String → GeminiResponse)
    (bedrock : String → MistralBody) (u : String) (q : List (List SqlValue))
    (hb : geminiBlocked (gen 0 (DataAccessThruPrompt.answerPrompt u (resultStr q))) = true)
    (hm : (bedrock (DataAccessThruPromptMistral.answerPrompt u (resultStr q))).results =
      some [⟨none⟩]) :
    (DataAccessThruPrompt.generate_final_answer gen u q).1 =
      .error (.valueError "No valid answer from Gemini.") ∧
    (DataAccessThruPrompt.generate_final_answer gen u q).2.length = 1 ∧
    (DataAccessThruPromptMistral.generate_final_answer bedrock u q).1 = .ok "" ∧
    (DataAccessThruPromptMistral.generate_final_answer bedrock u q).2.length = 1 := by
  refine ⟨?_, ?_, ?_, rfl⟩
  · simp only [DataAccessThruPrompt.generate_final_answer, hb, if_true]
  · simp only [DataAccessThruPrompt.generate_final_answer, apply_ite Prod.snd, ite_self]
    rfl
  · simp only [DataAccessThruPromptMistral.generate_final_answer,
      DataAccessThruPromptMistral.call_mistral, hm]
    rfl

/-- Witness for C6 (amended) at a blocked Gemini mock and a Bedrock mock
with an empty output text. -/
theorem generate_final_answer_no_usable_witness :
    geminiBlocked ((fun _ _ => (⟨[]⟩ : GeminiResponse)) 0
      (DataAccessThruPrompt.answerPrompt "q" (resultStr [[.int 5]]))) = true ∧
    (DataAccessThruPrompt.generate_final_answer (fun _ _ => ⟨[]⟩) "q" [[.int 5]]).1 =
      .error (.valueError "No valid answer from Gemini.") ∧
    (DataAccessThruPromptMistral.generate_final_answer
        (fun _ => ⟨some [⟨none⟩]⟩) "q" [[.int 5]]).1 = .ok "" := by
  refine ⟨rfl, ?_, ?_⟩
  · exact (generate_final_answer_no_usable (fun _ _ => ⟨[]⟩) (fun _ => ⟨some [⟨none⟩]⟩)
      "q" [[.int 5]] rfl rfl).1
  · exact (generate_final_answer_no_usable (fun _ _ => ⟨[]⟩) (fun _ => ⟨some [⟨none⟩]⟩)
      "q" [[.int 5]] rfl rfl).2.2.1

/-- Counterexample to C6 as stated: in the Mistral variant a response whose
single candidate has no output text — a completion with no usable content —
makes `generate_final_answer` return `.ok ""`; no "no answer produced" error
is raised. -/
theorem generate_final_answer_no_usable_counterexample :
    (DataAccessThruPromptMistral.generate_final_answer
        (fun _ => ⟨some [⟨none⟩]⟩) "q" [[.int 1]]).1 = .ok "" ∧
    ∀ e : PyError, (DataAccessThruPromptMistral.generate_final_answer
        (fun _ => ⟨some [⟨none⟩]⟩) "q" [[.int 1]]).1 ≠ .error e :=
  ⟨rfl, fun _ h => Except.noConfusion h⟩

/-- C7: after any non-exit input line the loop records the turn — answered or
errored alike — and continues with the remaining input, and the sequence of
inputs it consumes is independent of the pipeline's outcomes (a pipeline
exception never terminates the loop). -/
theorem mainLoop_continues (pipeline p2 : String → Except PyError String)
    (user_input : String) (rest : List String)
    (h1 : pyLower user_input ≠ "exit") (h2 : pyLower user_input ≠ "quit") :
    mainLoop pipeline (user_input :: rest) =
      (user_input, pipeline user_input) :: mainLoop pipeline rest ∧
    (mainLoop pipeline (user_input :: rest)).map Prod.fst =
      user_input :: (mainLoop pipeline rest).map Prod.fst ∧
    (mainLoop pipeline rest).map Prod.fst = (mainLoop p2 rest).map Prod.fst := by
  have hc : (pyLower user_input == "exit" || pyLower user_input == "quit") = false := by
    simp [h1, h2]
  refine ⟨?_, ?_, mainLoop_fst_indep pipeline p2 rest⟩
  · simp [mainLoop, hc]
  · simp [mainLoop, hc]

/-- Witness for C7: a pipeline that always raises still leaves the loop
reading the next line, identically to a pipeline that always answers. -/
theorem mainLoop_continues_witness :
    pyLower "hi" ≠ "exit" ∧ pyLower "hi" ≠ "quit" ∧
    mainLoop mockFailingPipeline ["hi", "next", "exit"] =
      ("hi", .error (.valueError "boom")) :: mainLoop mockFailingPipeline ["next", "exit"] ∧
    (mainLoop mockFailingPipeline ["next", "exit"]).map Prod.fst =
      (mainLoop mockOkPipeline ["next", "exit"]).map Prod.fst := by
  refine ⟨by decide, by decide, ?_, ?_⟩
  · exact (mainLoop_continues mockFailingPipeline mockOkPipeline "hi" ["next", "exit"]
      (by decide) (by decide)).1
  · exact (mainLoop_continues mockFailingPipeline mockOkPipeline "hi" ["next", "exit"]
      (by decide) (by decide)).2.2

/-- If the cleaned text parses as JSON that is not an object, the extraction
step raises `AttributeError` (Python: a non-dict has no `.get`). -/
theorem extractSql_non_object (cleaned : String) (v : JValue)
    (hj : json_loads cleaned = .ok v) (hn : ∀ members, v ≠ JValue.obj members) :
    extractSql cleaned = .error .attributeError := by
  unfold extractSql
  rw [hj]
  cases v with
  | null => rfl
  | bool b => rfl
  | num l => rfl
  | str s => rfl
  | arr a => rfl
  | obj members => exact absurd rfl (hn members)

/-- C8 (amended): the schema load is a pure function of the file contents
(re-loading yields the same document), and the serialized schema is embedded
verbatim in the SQL-synthesis prompt of both variants; the answer-synthesis
prompt, however, does not embed the schema (see the counterexample). -/
theorem schema_embedding_amended (dataDictJson user_prompt contents : String) (v : JValue)
    (h : schemaLoad contents = .ok v) :
    schemaLoad contents = .ok v ∧
    strContainsSub (DataAccessThruPrompt.basePrompt dataDictJson user_prompt) dataDictJson = true ∧
    strContainsSub (DataAccessThruPromptMistral.basePrompt dataDictJson user_prompt)
      dataDictJson = true :=
  ⟨h, basePrompt_contains_schema dataDictJson user_prompt,
    basePromptM_contains_schema dataDictJson user_prompt⟩

/-- Witness for C8 (amended) at a concrete well-formed schema document. -/
theorem schema_embedding_amended_witness :
    schemaLoad "\x7b\"tables\": []\x7d" = .ok (.obj [("tables", .arr [])]) ∧
    strContainsSub (DataAccessThruPrompt.basePrompt "\x7b\"tables\": []\x7d" "q")
      "\x7b\"tables\": []\x7d" = true ∧
    strContainsSub (DataAccessThruPromptMistral.basePrompt "\x7b\"tables\": []\x7d" "q")
      "\x7b\"tables\": []\x7d" = true := by
  refine ⟨by rfl, ?_, ?_⟩
  · exact (schema_embedding_amended "\x7b\"tables\": []\x7d" "q" "\x7b\"tables\": []\x7d"
      (.obj [("tables", .arr [])]) (by rfl)).2.1
  · exact (schema_embedding_amended "\x7b\"tables\": []\x7d" "q" "\x7b\"tables\": []\x7d"
      (.obj [("tables", .arr [])]) (by rfl)).2.2

set_option maxRecDepth 16384 in
/-- Counterexample to C8 as stated: for the well-formed schema document
`\x7b"tables": []\x7d` the answer-synthesis prompt of either variant (here at
question `"q"` and result `[[1]]`) does not contain the serialized schema:
the claim's "embedded into every synthesis prompt, i.e. into both the
SQL-synthesis prompt and the answer-synthesis prompt" fails for the answer
prompt. -/
theorem schema_embedding_counterexample :
    schemaLoad "\x7b\"tables\": []\x7d" = .ok (.obj [("tables", .arr [])]) ∧
    strContainsSub (DataAccessThruPrompt.answerPrompt "q" (resultStr [[.int 1]]))
      "\x7b\"tables\": []\x7d" = false ∧
    strContainsSub (DataAccessThruPromptMistral.answerPrompt "q" (resultStr [[.int 1]]))
      "\x7b\"tables\": []\x7d" = false :=
  ⟨rfl, rfl, rfl⟩

/-- C9: when the cleaned response text parses as a JSON object without a
`"sql"` key, both variants return the empty string (`dict.get`'s default,
stripped), not the raw-text fallback. -/
theorem prompt_to_sql_missing_key (gen : Nat → String → GeminiResponse)
    (bedrock : String → MistralBody) (dataDictJson user_prompt raw : String)
    (mg mm : List (String × JValue))
    (hg : geminiBlocked (gen 0 (DataAccessThruPrompt.basePrompt dataDictJson user_prompt)) = false)
    (hgj : json_loads (cleanText (geminiFirstText
        (gen 0 (DataAccessThruPrompt.basePrompt dataDictJson user_prompt)))) = .ok (.obj mg))
    (hgf : objFind "sql" mg = none)
    (hm : DataAccessThruPromptMistral.call_mistral bedrock
        (DataAccessThruPromptMistral.basePrompt dataDictJson user_prompt) = .ok raw)
    (hmj : json_loads (cleanText raw) = .ok (.obj mm))
    (hmf : objFind "sql" mm = none) :
    (DataAccessThruPrompt.prompt_to_sql gen dataDictJson user_prompt).1 = .ok "" ∧
    (DataAccessThruPromptMistral.prompt_to_sql bedrock dataDictJson user_prompt).1 = .ok "" := by
  constructor
  · simp only [DataAccessThruPrompt.prompt_to_sql, hg, Bool.false_eq_true, if_false]
    simp only [extractSql, hgj, hgf]
    rfl
  · simp only [DataAccessThruPromptMistral.prompt_to_sql, hm]
    simp only [extractSql, hmj, hmf]
    rfl

/-- Witness for C9 at the JSON object `\x7b"answer": 1\x7d`, which has no
`"sql"` key. -/
theorem prompt_to_sql_missing_key_witness :
    json_loads (cleanText "\x7b\"answer\": 1\x7d") =
      .ok (.obj [("answer", .num "1")]) ∧
    objFind "sql" [("answer", JValue.num "1")] = none ∧
    (DataAccessThruPrompt.prompt_to_sql (mockGeminiText "\x7b\"answer\": 1\x7d")
        "\x7b\x7d" "q").1 = .ok "" ∧
    (DataAccessThruPromptMistral.prompt_to_sql (mockBedrockText "\x7b\"answer\": 1\x7d")
        "\x7b\x7d" "q").1 = .ok "" := by
  refine ⟨by rfl, rfl, ?_, ?_⟩
  · exact (prompt_to_sql_missing_key (mockGeminiText "\x7b\"answer\": 1\x7d")
      (mockBedrockText "\x7b\"answer\": 1\x7d") "\x7b\x7d" "q" "\x7b\"answer\": 1\x7d"
      [("answer", .num "1")] [("answer", .num "1")]
      rfl (by rfl) rfl (by rfl) (by rfl) rfl).1
  · exact (prompt_to_sql_missing_key (mockGeminiText "\x7b\"answer\": 1\x7d")
      (mockBedrockText "\x7b\"answer\": 1\x7d") "\x7b\x7d" "q" "\x7b\"answer\": 1\x7d"
      [("answer", .num "1")] [("answer", .num "1")]
      rfl (by rfl) rfl (by rfl) (by rfl) rfl).2

/-- C10: when the cleaned response text parses as valid JSON that is not an
object, `parsed.get` does not exist, so both variants raise `AttributeError`
(not caught — only `json.JSONDecodeError` is) instead of falling back to the
raw text. -/
theorem prompt_to_sql_non_object (gen : Nat → String → GeminiResponse)
    (bedrock : String → MistralBody) (dataDictJson user_prompt raw : String)
    (vG vM : JValue)
    (hg : geminiBlocked (gen 0 (DataAccessThruPrompt.basePrompt dataDictJson user_prompt)) = false)
    (hgj : json_loads (cleanText (geminiFirstText
        (gen 0 (DataAccessThruPrompt.basePrompt dataDictJson user_prompt)))) = .ok vG)
    (hgn : ∀ members, vG ≠ JValue.obj members)
    (hm : DataAccessThruPromptMistral.call_mistral bedrock
        (DataAccessThruPromptMistral.basePrompt dataDictJson user_prompt) = .ok raw)
    (hmj : json_loads (cleanText raw) = .ok vM)
    (hmn : ∀ members, vM ≠ JValue.obj members) :
    (DataAccessThruPrompt.prompt_to_sql gen dataDictJson user_prompt).1 =
      .error .attributeError ∧
    (DataAccessThruPromptMistral.prompt_to_sql bedrock dataDictJson user_prompt).1 =
      .error .attributeError := by
  constructor
  · simp only [DataAccessThruPrompt.prompt_to_sql, hg, Bool.false_eq_true, if_false]
    exact extractSql_non_object _ vG hgj hgn
  · simp only [DataAccessThruPromptMistral.prompt_to_sql, hm]
    exact extractSql_non_object _ vM hmj hmn

/-- Witness for C10 at the JSON array `[1, 2]` (Gemini side) and the bare
number `42` (Mistral side). -/
theorem prompt_to_sql_non_object_witness :
    json_loads (cleanText "[1, 2]") = .ok (.arr [.num "1", .num "2"]) ∧
    json_loads (cleanText "42") = .ok (.num "42") ∧
    (DataAccessThruPrompt.prompt_to_sql (mockGeminiText "[1, 2]") "\x7b\x7d" "q").1 =
      .error .attributeError ∧
    (DataAccessThruPromptMistral.prompt_to_sql (mockBedrockText "42") "\x7b\x7d" "q").1 =
      .error .attributeError := by
  refine ⟨by rfl, by rfl, ?_, ?_⟩
  · exact (prompt_to_sql_non_object (mockGeminiText "[1, 2]") (mockBedrockText "42")
      "\x7b\x7d" "q" "42" (.arr [.num "1", .num "2"]) (.num "42")
      rfl (by rfl) (fun _ h => JValue.noConfusion h)
      rfl (by rfl) (fun _ h => JValue.noConfusion h)).1
  · exact (prompt_to_sql_non_object (mockGeminiText "[1, 2]") (mockBedrockText "42")
      "\x7b\x7d" "q" "42" (.arr [.num "1", .num "2"]) (.num "42")
      rfl (by rfl) (fun _ h => JValue.noConfusion h)
      rfl (by rfl) (fun _ h => JValue.noConfusion h)).2
